import Mathlib

/-!
Verification of the Tibero dialect layer of the alembic migration tool
(`alembic/ddl/tibero.py`): the per-operation SQL renderers, the dialect
capability profile (batch separator, command terminator, transactional DDL),
the execution adapter, and the type-synonym equivalence engine.

Functions defined in `alembic/ddl/base.py` and `alembic/ddl/impl.py`
(`alter_table`, `format_table_name`, `format_column_name`,
`DefaultImpl._exec`, `DefaultImpl.type_synonyms`, the type-synonym resolver)
are not part of the shown source; they are modelled from the specification
and marked as such in their doc comments.
-/

namespace Alembic

/-- Modelled from the spec: `format_table_name` (from `alembic/ddl/base.py`,
an external formatting collaborator): a pure string-producing function over
schema metadata; the table name is schema-qualified when a schema is
present. Identifier quoting primitives are out of scope of the spec, so
names render as themselves. -/
def format_table_name (name : String) (schema : Option String) : String :=
  match schema with
  | some s => s ++ "." ++ name
  | none => name

/-- Modelled from the spec: `format_column_name` (from `alembic/ddl/base.py`):
a pure string-producing formatting collaborator; identifier quoting is out of
scope, so a column name renders as itself. -/
def format_column_name (name : String) : String :=
  name

/-- Modelled from the spec: `alter_table` (from `alembic/ddl/base.py`):
renders the `ALTER TABLE <table>` clause, where `<table>` includes schema
qualification when present. -/
def alter_table (table_name : String) (schema : Option String) : String :=
  "ALTER TABLE " ++ format_table_name table_name schema

/-- The external formatting collaborators supplied through the `compiler`
argument of the visit functions in `alembic/ddl/tibero.py`: the per-dialect
default-expression formatter, the SQL literal renderer, the type formatter,
the column-specification renderer and the generic identity-clause formatter.
The spec treats these as opaque pure string-producing functions. -/
structure Compiler where
  format_server_default : String → String
  render_literal_value : String → String
  format_type : String → String
  get_column_specification : String → String
  visit_identity_column : String → String

/-- `alter_column` from `alembic/ddl/tibero.py`: `MODIFY <column>`. -/
def alter_column (name : String) : String :=
  "MODIFY " ++ format_column_name name

/-- `add_column` from `alembic/ddl/tibero.py`: `ADD <column-specification>`. -/
def add_column (compiler : Compiler) (column : String) : String :=
  "ADD " ++ compiler.get_column_specification column

/-- The `AddColumn` operation: `table_name`, optional `schema`, and the
column to add (represented by the data handed to the column-specification
formatter). -/
structure AddColumn where
  table_name : String
  schema : Option String
  column : String

/-- The `ColumnNullable` operation. -/
structure ColumnNullable where
  table_name : String
  schema : Option String
  column_name : String
  nullable : Bool

/-- The `ColumnType` operation; the type is the data handed to the external
type formatter. -/
structure ColumnType where
  table_name : String
  schema : Option String
  column_name : String
  type_ : String

/-- The `ColumnName` operation. -/
structure ColumnName where
  table_name : String
  schema : Option String
  column_name : String
  newname : String

/-- The `ColumnDefault` operation; `default` is the optional default
expression (absent means a null default). -/
structure ColumnDefault where
  table_name : String
  schema : Option String
  column_name : String
  default : Option String

/-- The `ColumnComment` operation; `comment` may be absent. -/
structure ColumnComment where
  table_name : String
  schema : Option String
  column_name : String
  comment : Option String

/-- The `RenameTable` operation. -/
structure RenameTable where
  table_name : String
  schema : Option String
  new_table_name : String

/-- The `IdentityColumnDefault` operation; `default` is the optional identity
spec (absent means drop identity). -/
structure IdentityColumnDefault where
  table_name : String
  schema : Option String
  column_name : String
  default : Option String

/-- `visit_add_column` from `alembic/ddl/tibero.py`. -/
def visit_add_column (compiler : Compiler) (element : AddColumn) : String :=
  alter_table element.table_name element.schema ++ " " ++
    add_column compiler element.column

/-- `visit_column_nullable` from `alembic/ddl/tibero.py`. -/
def visit_column_nullable (element : ColumnNullable) : String :=
  alter_table element.table_name element.schema ++ " " ++
    alter_column element.column_name ++ " " ++
    (if element.nullable then "NULL" else "NOT NULL")

/-- `visit_column_type` from `alembic/ddl/tibero.py`. -/
def visit_column_type (compiler : Compiler) (element : ColumnType) : String :=
  alter_table element.table_name element.schema ++ " " ++
    alter_column element.column_name ++ " " ++
    compiler.format_type element.type_

/-- `visit_column_name` from `alembic/ddl/tibero.py`. -/
def visit_column_name (element : ColumnName) : String :=
  alter_table element.table_name element.schema ++ " RENAME COLUMN " ++
    format_column_name element.column_name ++ " TO " ++
    format_column_name element.newname

/-- `visit_column_default` from `alembic/ddl/tibero.py`. -/
def visit_column_default (compiler : Compiler) (element : ColumnDefault) :
    String :=
  alter_table element.table_name element.schema ++ " " ++
    alter_column element.column_name ++ " " ++
    (match element.default with
     | some d => "DEFAULT " ++ compiler.format_server_default d
     | none => "DEFAULT NULL")

/-- `visit_column_comment` from `alembic/ddl/tibero.py`: note that the
template is filled with the raw `element.table_name` and
`element.column_name`, not with the formatting helpers, and the schema field
is not consulted. -/
def visit_column_comment (compiler : Compiler) (element : ColumnComment) :
    String :=
  "COMMENT ON COLUMN " ++ element.table_name ++ "." ++ element.column_name ++
    " IS " ++ compiler.render_literal_value (element.comment.getD "")

/-- `visit_rename_table` from `alembic/ddl/tibero.py`. -/
def visit_rename_table (element : RenameTable) : String :=
  alter_table element.table_name element.schema ++ " RENAME TO " ++
    format_table_name element.new_table_name none

/-- `visit_identity_column` from `alembic/ddl/tibero.py`. -/
def visit_identity_column (compiler : Compiler)
    (element : IdentityColumnDefault) : String :=
  let text := alter_table element.table_name element.schema ++ " " ++
    alter_column element.column_name ++ " "
  match element.default with
  | none => text ++ "DROP IDENTITY"
  | some d => text ++ compiler.visit_identity_column d

/-- Modelled from the spec: `DefaultImpl.type_synonyms` (from
`alembic/ddl/impl.py`, not in the shown source) is the base list of
type-synonym classes inherited from the default profile. The spec does not
enumerate any base class, so the base is modelled as empty. -/
def DefaultImpl.type_synonyms : List (List String) :=
  []

/-- `TiberoImpl.type_synonyms` from `alembic/ddl/tibero.py`: the base
classes extended with the three Tibero-specific classes. -/
def TiberoImpl.type_synonyms : List (List String) :=
  DefaultImpl.type_synonyms ++
    [["VARCHAR", "VARCHAR2"],
     ["BIGINT", "INTEGER", "SMALLINT", "DECIMAL", "NUMERIC", "NUMBER"],
     ["DOUBLE", "FLOAT", "DOUBLE_PRECISION"]]

/-- Modelled from the spec: the Type Synonym Resolver (implemented in
`alembic/ddl/impl.py`, not in the shown source): `equivalent(a, b, profile)`
returns true iff `a == b`, or both `a` and `b` appear in the same entry of
the profile's type-synonym classes. -/
def equivalent (classes : List (List String)) (a b : String) : Bool :=
  a == b || classes.any (fun c => c.contains a && c.contains b)

/-- `TiberoImpl.transactional_ddl` from `alembic/ddl/tibero.py`: the
dialect capability profile declares that DDL is not transactional. -/
def TiberoImpl.transactional_ddl : Bool :=
  false

/-- The mutable fields of a `TiberoImpl` instance that the execution
adapter consults: the execution mode (`as_sql` true means Script mode), the
batch separator and the command terminator. -/
structure TiberoImpl where
  as_sql : Bool
  batch_separator : String
  command_terminator : String

/-- `TiberoImpl.__init__` from `alembic/ddl/tibero.py`: the class-level
defaults are `batch_separator = "/"` and `command_terminator = ""`, and the
constructor replaces the batch separator with the value of the context
option `"tibero_batch_separator"` when that option is supplied. -/
def TiberoImpl.init (as_sql : Bool) (context_opts : List (String × String)) :
    TiberoImpl :=
  { as_sql := as_sql,
    batch_separator := (context_opts.lookup "tibero_batch_separator").getD "/",
    command_terminator := "" }

/-- The observable effects of the execution adapter: the script output
buffer (a list of emitted chunks, in order), the statements sent to the live
connection, and the trace of every statement dispatched through the normal
execution path (`DefaultImpl._exec`), in either mode. -/
structure ExecState where
  output_buffer : List String
  sent : List String
  dispatched : List String

/-- Modelled from the spec: `DefaultImpl._exec` (from `alembic/ddl/impl.py`,
not in the shown source), the normal execution path. In Script mode
(`as_sql`) it appends the statement followed by the command terminator to
the output buffer; in Live mode it sends the statement to the active
connection. Either way the statement is recorded as dispatched. -/
def DefaultImpl._exec (impl : TiberoImpl) (st : ExecState)
    (statement : String) : ExecState :=
  if impl.as_sql then
    { st with
      output_buffer :=
        st.output_buffer ++ [statement ++ impl.command_terminator],
      dispatched := st.dispatched ++ [statement] }
  else
    { st with
      sent := st.sent ++ [statement],
      dispatched := st.dispatched ++ [statement] }

/-- `TiberoImpl._exec` from `alembic/ddl/tibero.py`: run the normal
execution path, then, when generating a script and the batch separator is
non-empty (Python truthiness of the string), emit the batch separator as
static output. -/
def TiberoImpl._exec (impl : TiberoImpl) (st : ExecState)
    (statement : String) : ExecState :=
  let st₁ := DefaultImpl._exec impl st statement
  if impl.as_sql && (impl.batch_separator != "") then
    { st₁ with output_buffer := st₁.output_buffer ++ [impl.batch_separator] }
  else
    st₁

/-- `TiberoImpl.emit_begin` from `alembic/ddl/tibero.py`. -/
def TiberoImpl.emit_begin (impl : TiberoImpl) (st : ExecState) : ExecState :=
  impl._exec st "SET TRANSACTION READ WRITE"

/-- `TiberoImpl.emit_commit` from `alembic/ddl/tibero.py`. -/
def TiberoImpl.emit_commit (impl : TiberoImpl) (st : ExecState) : ExecState :=
  impl._exec st "COMMIT"

/-- Dispatching a sequence of statements through `TiberoImpl._exec`, in
order. -/
def dispatchAll (impl : TiberoImpl) (st : ExecState) :
    List String → ExecState
  | [] => st
  | s :: rest => dispatchAll impl (impl._exec st s) rest


/-- A concrete instance of the external formatting collaborators, used to
evaluate the renderers on closed inputs: the literal renderer wraps the
value in single quotes, the other formatters return their argument. -/
def sqlCompiler : Compiler :=
  { format_server_default := fun d => d,
    render_literal_value := fun v => "'" ++ v ++ "'",
    format_type := fun t => t,
    get_column_specification := fun c => c,
    visit_identity_column := fun d => "IDENTITY " ++ d }

/-- Claim C1: the entries of the Tibero profile's type-synonym classes (the base
classes inherited from the default profile together with the three
dialect-specific classes) are pairwise disjoint: no type name appears in two
distinct classes. -/
theorem tibero_type_synonyms_pairwise_disjoint :
    TiberoImpl.type_synonyms.Pairwise (fun c₁ c₂ => ∀ x, x ∈ c₁ → x ∉ c₂) := by
  decide

/-- Claim C8: `ColumnNullable` renders as `ALTER TABLE <table> MODIFY <column>
NULL` when the nullable flag is true and as `ALTER TABLE <table> MODIFY
<column> NOT NULL` when it is false, and the spec's Example 1 holds. -/
theorem tibero_column_nullable_render :
    (∀ (t c : String) (s : Option String),
        visit_column_nullable ⟨t, s, c, true⟩
          = "ALTER TABLE " ++ format_table_name t s ++ " MODIFY " ++ c
              ++ " NULL"
      ∧ visit_column_nullable ⟨t, s, c, false⟩
          = "ALTER TABLE " ++ format_table_name t s ++ " MODIFY " ++ c
              ++ " NOT NULL")
    ∧ visit_column_nullable ⟨"T", none, "C", false⟩
        = "ALTER TABLE T MODIFY C NOT NULL" := by
  refine ⟨fun t c s => ⟨?_, ?_⟩, by rfl⟩ <;>
    (simp only [visit_column_nullable, alter_table, alter_column,
      format_column_name, String.append_assoc] <;> rfl)

/-- Claim C9: `RenameTable` renders as `ALTER TABLE <table> RENAME TO
<new_table>`, with the old table name schema-qualified when a schema is
present and the new table name never schema-qualified, and the spec's
Example 3 holds. -/
theorem tibero_rename_table_render :
    (∀ (t nt : String) (s : Option String),
        visit_rename_table ⟨t, s, nt⟩
          = "ALTER TABLE " ++ format_table_name t s ++ " RENAME TO " ++ nt)
    ∧ (∀ (t nt sch : String),
        visit_rename_table ⟨t, some sch, nt⟩
          = "ALTER TABLE " ++ sch ++ "." ++ t ++ " RENAME TO " ++ nt)
    ∧ visit_rename_table ⟨"T", none, "T2"⟩ = "ALTER TABLE T RENAME TO T2" := by
  refine ⟨fun t nt s => ?_, fun t nt sch => ?_, by rfl⟩ <;>
    (simp only [visit_rename_table, alter_table, format_table_name,
      String.append_assoc] <;> rfl)

/-- Claim C2: `ColumnDefault` renders as `ALTER TABLE <table> MODIFY <column>
DEFAULT <expr>` when a default expression is present and as `ALTER TABLE
<table> MODIFY <column> DEFAULT NULL` when it is absent, and the spec's
Example 2 holds. -/
theorem tibero_column_default_render :
    (∀ (compiler : Compiler) (t c d : String) (s : Option String),
        visit_column_default compiler ⟨t, s, c, some d⟩
          = "ALTER TABLE " ++ format_table_name t s ++ " MODIFY " ++ c
              ++ " DEFAULT " ++ compiler.format_server_default d
      ∧ visit_column_default compiler ⟨t, s, c, none⟩
          = "ALTER TABLE " ++ format_table_name t s ++ " MODIFY " ++ c
              ++ " DEFAULT NULL")
    ∧ ∀ compiler : Compiler,
        visit_column_default compiler ⟨"T", none, "C", none⟩
          = "ALTER TABLE T MODIFY C DEFAULT NULL" := by
  refine ⟨fun compiler t c d s => ⟨?_, ?_⟩, fun compiler => by rfl⟩ <;>
    (simp only [visit_column_default, alter_table, alter_column,
      format_column_name, String.append_assoc] <;> rfl)

/-- Claim C3 counterexample: with a schema present, `ColumnComment` is rendered
from the raw table name; the schema-qualified table name demanded by the
claim does not appear in the output. -/
theorem tibero_column_comment_schema_counterexample :
    visit_column_comment sqlCompiler ⟨"T", some "S", "C", none⟩
        = "COMMENT ON COLUMN T.C IS ''"
    ∧ visit_column_comment sqlCompiler ⟨"T", some "S", "C", none⟩
        ≠ "COMMENT ON COLUMN S.T.C IS ''" := by
  exact ⟨by rfl, by decide⟩

/-- Claim C3 amended: `ColumnComment` renders as `COMMENT ON COLUMN
<table>.<column> IS <literal>` where `<table>` is the raw table name, never
schema-qualified (the schema field is ignored), and an absent comment
renders as the literal for the empty string. -/
theorem tibero_column_comment_render :
    ∀ (compiler : Compiler) (t c cm : String) (s : Option String),
      (visit_column_comment compiler ⟨t, s, c, some cm⟩
          = "COMMENT ON COLUMN " ++ t ++ "." ++ c ++ " IS "
              ++ compiler.render_literal_value cm)
      ∧ (visit_column_comment compiler ⟨t, s, c, none⟩
          = "COMMENT ON COLUMN " ++ t ++ "." ++ c ++ " IS "
              ++ compiler.render_literal_value "") := by
  refine fun compiler t c cm s => ⟨?_, ?_⟩ <;>
    (simp only [visit_column_comment, Option.getD, String.append_assoc] <;> rfl)

/-- Claim C4: `IdentityColumnDefault` with an absent identity spec renders as
`ALTER TABLE <table> MODIFY <column> DROP IDENTITY` (in particular the
output is some string followed by `DROP IDENTITY`, i.e. it ends with
`DROP IDENTITY`); with a present spec it renders as `ALTER TABLE <table>
MODIFY <column> ` followed by the clause produced by the external
identity-formatting collaborator. -/
theorem tibero_identity_column_render :
    (∀ (compiler : Compiler) (t c : String) (s : Option String),
        (visit_identity_column compiler ⟨t, s, c, none⟩
          = "ALTER TABLE " ++ format_table_name t s ++ " MODIFY " ++ c
              ++ " DROP IDENTITY")
      ∧ (∃ p : String, visit_identity_column compiler ⟨t, s, c, none⟩
          = p ++ "DROP IDENTITY")
      ∧ ∀ d, visit_identity_column compiler ⟨t, s, c, some d⟩
          = "ALTER TABLE " ++ format_table_name t s ++ " MODIFY " ++ c ++ " "
              ++ compiler.visit_identity_column d)
    ∧ visit_identity_column sqlCompiler ⟨"T", none, "C", none⟩
        = "ALTER TABLE T MODIFY C DROP IDENTITY" := by
  refine ⟨fun compiler t c s =>
    ⟨?_,
     ⟨"ALTER TABLE " ++ format_table_name t s ++ " MODIFY " ++ c ++ " ", ?_⟩,
     fun d => ?_⟩, by rfl⟩ <;>
    (simp only [visit_identity_column, alter_table, alter_column,
      format_column_name, String.append_assoc] <;> rfl)


theorem exec_script_state (impl : TiberoImpl) (h : impl.as_sql = true)
    (hsep : impl.batch_separator ≠ "") (st : ExecState) (s : String) :
    impl._exec st s
      = { st with
          output_buffer := st.output_buffer
            ++ [s ++ impl.command_terminator, impl.batch_separator],
          dispatched := st.dispatched ++ [s] } := by
  simp [TiberoImpl._exec, DefaultImpl._exec, h, hsep]

theorem exec_script_nosep_state (impl : TiberoImpl) (h : impl.as_sql = true)
    (hsep : impl.batch_separator = "") (st : ExecState) (s : String) :
    impl._exec st s
      = { st with
          output_buffer := st.output_buffer ++ [s ++ impl.command_terminator],
          dispatched := st.dispatched ++ [s] } := by
  simp [TiberoImpl._exec, DefaultImpl._exec, h, hsep]

theorem exec_live_state (impl : TiberoImpl) (h : impl.as_sql = false)
    (st : ExecState) (s : String) :
    impl._exec st s
      = { st with
          sent := st.sent ++ [s],
          dispatched := st.dispatched ++ [s] } := by
  simp [TiberoImpl._exec, DefaultImpl._exec, h]

theorem exec_dispatched (impl : TiberoImpl) (st : ExecState) (s : String) :
    (impl._exec st s).dispatched = st.dispatched ++ [s] := by
  by_cases h : impl.as_sql = true
  · by_cases hsep : impl.batch_separator = ""
    · rw [exec_script_nosep_state impl h hsep]
    · rw [exec_script_state impl h hsep]
  · have h' : impl.as_sql = false := by simpa using h
    rw [exec_live_state impl h']

theorem dispatchAll_script_output (impl : TiberoImpl) (h : impl.as_sql = true)
    (hsep : impl.batch_separator ≠ "") (stmts : List String) :
    ∀ st : ExecState,
      (dispatchAll impl st stmts).output_buffer
        = st.output_buffer ++ stmts.flatMap
            (fun s => [s ++ impl.command_terminator, impl.batch_separator]) := by
  induction stmts with
  | nil => intro st; simp [dispatchAll]
  | cons s rest ih =>
    intro st
    rw [dispatchAll, exec_script_state impl h hsep, ih]
    simp

theorem dispatchAll_script_nosep (impl : TiberoImpl) (h : impl.as_sql = true)
    (hsep : impl.batch_separator = "") (stmts : List String) :
    ∀ st : ExecState,
      (dispatchAll impl st stmts).output_buffer
        = st.output_buffer
            ++ stmts.map (fun s => s ++ impl.command_terminator) := by
  induction stmts with
  | nil => intro st; simp [dispatchAll]
  | cons s rest ih =>
    intro st
    rw [dispatchAll, exec_script_nosep_state impl h hsep, ih]
    simp

theorem dispatchAll_live (impl : TiberoImpl) (h : impl.as_sql = false)
    (stmts : List String) :
    ∀ st : ExecState,
      dispatchAll impl st stmts
        = { st with
            sent := st.sent ++ stmts,
            dispatched := st.dispatched ++ stmts } := by
  induction stmts with
  | nil => intro st; simp [dispatchAll]
  | cons s rest ih =>
    intro st
    rw [dispatchAll, exec_live_state impl h, ih]
    simp

theorem count_flatMap_sep (term sep : String) (stmts : List String)
    (hno : ∀ s ∈ stmts, s ++ term ≠ sep) :
    (stmts.flatMap (fun s => [s ++ term, sep])).count sep = stmts.length := by
  induction stmts with
  | nil => rfl
  | cons s rest ih =>
    have h1 : ¬(s ++ term = sep) := hno s (by simp)
    have h2 := ih (fun x hx => hno x (by simp [hx]))
    simp [List.flatMap_cons, List.count_append, List.count_cons, h1, h2]

/-- Claim C5: in Script mode with a non-empty batch separator, dispatching a
sequence of statements emits, for each statement in order, the statement
followed by the command terminator and then the batch separator, so the
buffer holds exactly one separator occurrence per statement, each
immediately after its statement; in Live mode only the statements
themselves are sent and nothing reaches the script buffer. -/
theorem tibero_script_separator_live (impl : TiberoImpl)
    (stmts : List String) :
    (impl.as_sql = true → impl.batch_separator ≠ "" →
        (dispatchAll impl ⟨[], [], []⟩ stmts).output_buffer
          = stmts.flatMap (fun s =>
              [s ++ impl.command_terminator, impl.batch_separator]))
    ∧ (impl.as_sql = true → impl.batch_separator ≠ "" →
        (∀ s ∈ stmts, s ++ impl.command_terminator ≠ impl.batch_separator) →
        (dispatchAll impl ⟨[], [], []⟩ stmts).output_buffer.count
            impl.batch_separator = stmts.length)
    ∧ (impl.as_sql = false →
        (dispatchAll impl ⟨[], [], []⟩ stmts).sent = stmts
        ∧ (dispatchAll impl ⟨[], [], []⟩ stmts).output_buffer = []) := by
  refine ⟨fun h hsep => ?_, fun h hsep hno => ?_, fun h => ?_⟩
  · simpa using dispatchAll_script_output impl h hsep stmts ⟨[], [], []⟩
  · rw [dispatchAll_script_output impl h hsep stmts ⟨[], [], []⟩]
    simpa using count_flatMap_sep impl.command_terminator impl.batch_separator
      stmts hno
  · rw [dispatchAll_live impl h stmts ⟨[], [], []⟩]
    constructor <;> simp

theorem tibero_script_separator_live_witness :
    ((dispatchAll ⟨true, "/", ""⟩ ⟨[], [], []⟩ ["A", "B"]).output_buffer
        = ["A", "B"].flatMap (fun s => [s ++ "", "/"]))
    ∧ ((dispatchAll ⟨true, "/", ""⟩ ⟨[], [], []⟩ ["A", "B"]).output_buffer.count
        "/" = 2)
    ∧ ((dispatchAll ⟨false, "/", ""⟩ ⟨[], [], []⟩ ["A", "B"]).sent = ["A", "B"]
        ∧ (dispatchAll ⟨false, "/", ""⟩ ⟨[], [], []⟩ ["A", "B"]).output_buffer
            = []) :=
  ⟨(tibero_script_separator_live ⟨true, "/", ""⟩ ["A", "B"]).1 rfl (by decide),
   (tibero_script_separator_live ⟨true, "/", ""⟩ ["A", "B"]).2.1 rfl (by decide)
     (by decide),
   (tibero_script_separator_live ⟨false, "/", ""⟩ ["A", "B"]).2.2 rfl⟩

/-- Claim C7: the Tibero profile declares non-transactional DDL, and `emit_begin`
and `emit_commit` each dispatch exactly one statement through the normal
execution path: the read-write transaction opener and the commit statement
respectively. -/
theorem tibero_emit_begin_commit :
    TiberoImpl.transactional_ddl = false
    ∧ ∀ (impl : TiberoImpl) (st : ExecState),
        (impl.emit_begin st).dispatched
            = st.dispatched ++ ["SET TRANSACTION READ WRITE"]
        ∧ (impl.emit_commit st).dispatched = st.dispatched ++ ["COMMIT"] :=
  ⟨rfl, fun impl st =>
    ⟨exec_dispatched impl st "SET TRANSACTION READ WRITE",
     exec_dispatched impl st "COMMIT"⟩⟩

/-- Claim C10: the batch separator defaults to `"/"` at construction, the context
option `"tibero_batch_separator"` overrides it, Script-mode dispatch emits
the overridden separator after each statement, and an override to the empty
string suppresses separator emission entirely. -/
theorem tibero_batch_separator_override (opts : List (String × String)) :
    ((opts.lookup "tibero_batch_separator" = none →
        (TiberoImpl.init true opts).batch_separator = "/")
      ∧ ∀ v, opts.lookup "tibero_batch_separator" = some v →
          (TiberoImpl.init true opts).batch_separator = v)
    ∧ (∀ stmts : List String,
        (TiberoImpl.init true opts).batch_separator ≠ "" →
        (dispatchAll (TiberoImpl.init true opts) ⟨[], [], []⟩
            stmts).output_buffer
          = stmts.flatMap (fun s =>
              [s, (TiberoImpl.init true opts).batch_separator]))
    ∧ ∀ stmts : List String,
        opts.lookup "tibero_batch_separator" = some "" →
        (dispatchAll (TiberoImpl.init true opts) ⟨[], [], []⟩
            stmts).output_buffer
          = stmts := by
  refine ⟨⟨fun hn => ?_, fun v hv => ?_⟩, fun stmts hsep => ?_,
    fun stmts hv => ?_⟩
  · simp [TiberoImpl.init, hn]
  · simp [TiberoImpl.init, hv]
  · have h := dispatchAll_script_output (TiberoImpl.init true opts) rfl hsep
      stmts ⟨[], [], []⟩
    simpa [TiberoImpl.init, String.append_empty] using h
  · have hsep : (TiberoImpl.init true opts).batch_separator = "" := by
      simp [TiberoImpl.init, hv]
    have h := dispatchAll_script_nosep (TiberoImpl.init true opts) rfl hsep
      stmts ⟨[], [], []⟩
    simpa [TiberoImpl.init, String.append_empty] using h

theorem tibero_batch_separator_override_witness :
    (TiberoImpl.init true []).batch_separator = "/"
    ∧ (TiberoImpl.init true
        [("tibero_batch_separator", "X")]).batch_separator = "X"
    ∧ (dispatchAll (TiberoImpl.init true [("tibero_batch_separator", "")])
        ⟨[], [], []⟩ ["A", "B"]).output_buffer = ["A", "B"] :=
  ⟨(tibero_batch_separator_override []).1.1 rfl,
   (tibero_batch_separator_override [("tibero_batch_separator", "X")]).1.2
     "X" rfl,
   (tibero_batch_separator_override [("tibero_batch_separator", "")]).2.2
     ["A", "B"] rfl⟩

theorem equivalent_iff (classes : List (List String)) (a b : String) :
    equivalent classes a b = true ↔
      a = b ∨ ∃ cl ∈ classes, a ∈ cl ∧ b ∈ cl := by
  simp [equivalent, List.any_eq_true, List.contains, List.elem_iff,
    Bool.and_eq_true, beq_iff_eq]

/-- Claim C6: `equivalent(a, b)` over the Tibero type-synonym classes is true iff
`a = b` or both names appear in the same class; it is reflexive and
symmetric; it is false (in both argument orders) whenever the two names lie
in two distinct classes; and the spec's Example 5 holds. -/
theorem tibero_equivalent_spec :
    (∀ a b : String,
        equivalent TiberoImpl.type_synonyms a b = true ↔
          a = b ∨ ∃ cl ∈ TiberoImpl.type_synonyms, a ∈ cl ∧ b ∈ cl)
    ∧ (∀ a : String, equivalent TiberoImpl.type_synonyms a a = true)
    ∧ (∀ a b : String,
        equivalent TiberoImpl.type_synonyms a b
          = equivalent TiberoImpl.type_synonyms b a)
    ∧ TiberoImpl.type_synonyms.Pairwise (fun c₁ c₂ =>
        ∀ a ∈ c₁, ∀ b ∈ c₂,
          equivalent TiberoImpl.type_synonyms a b = false
          ∧ equivalent TiberoImpl.type_synonyms b a = false)
    ∧ equivalent TiberoImpl.type_synonyms "VARCHAR" "VARCHAR2" = true
    ∧ equivalent TiberoImpl.type_synonyms "VARCHAR" "INTEGER" = false := by
  refine ⟨fun a b => equivalent_iff _ a b, fun a => ?_, fun a b => ?_,
    by decide, by decide, by decide⟩
  · simp [equivalent]
  · refine Bool.eq_iff_iff.mpr ?_
    rw [equivalent_iff, equivalent_iff]
    constructor
    · rintro (rfl | ⟨cl, hcl, h1, h2⟩)
      · exact Or.inl rfl
      · exact Or.inr ⟨cl, hcl, h2, h1⟩
    · rintro (rfl | ⟨cl, hcl, h1, h2⟩)
      · exact Or.inl rfl
      · exact Or.inr ⟨cl, hcl, h2, h1⟩

theorem tibero_equivalent_spec_witness :
    equivalent TiberoImpl.type_synonyms "NUMBER" "NUMBER" = true :=
  tibero_equivalent_spec.2.1 "NUMBER"

end Alembic
